import Mathlib

/-!
Verification of the puppeteer_mcp_service session registry and JSON-RPC
dispatcher, as a shallow embedding of the Python sources
(`main.py`, `app/utils.py`, `app/browser_manager.py`, `app/routes.py`).

Modelling conventions:
* JSON values are the inductive `Json`; a Python `dict` is an insertion-ordered
  association list with unique keys (Python 3.7+ dict semantics), so key removal
  is modelled by filtering the key out and in-place overwrite by `dinsert`.
* `await request.json()` is modelled by an `Option Json` input to the handler:
  `none` means the body failed to parse.
* Playwright objects (browser, contexts, pages) are modelled by numeric handles
  drawn from a freshness counter; `page.context == ctx` object-identity tests
  become handle equality.  A page records the handle of its owning context.
* `browser.is_connected()`: browser crashes are outside the model, so the
  browser is connected exactly when a browser handle exists.
* Exceptions are explicit: `Except` results, or explicit exception outcomes.
-/

namespace PuppeteerMCP

/-- JSON values as produced by `request.json()`. -/
inductive Json where
  | null : Json
  | bool (b : Bool) : Json
  | num (n : Int) : Json
  | str (s : String) : Json
  | arr (xs : List Json) : Json
  | obj (fields : List (String × Json)) : Json

/-- Lookup of a key in a JSON object's field list (Python `dict` access:
first — and by uniqueness only — occurrence of the key). -/
def jget : List (String × Json) → String → Option Json
  | [], _ => none
  | (k, v) :: t, key => if k = key then some v else jget t key

/-- JSON-RPC error codes from `app/utils.py`. -/
def JSON_RPC_PARSE_ERROR : Int := -32700

def JSON_RPC_INVALID_REQUEST : Int := -32600

def JSON_RPC_METHOD_NOT_FOUND : Int := -32601

def JSON_RPC_INVALID_PARAMS : Int := -32602

def JSON_RPC_INTERNAL_ERROR : Int := -32603

def BROWSER_OPERATION_ERROR : Int := -32000

def PAGE_NOT_AVAILABLE_ERROR : Int := -32001

/-- `create_jsonrpc_error` from `app/utils.py`.  Python `None` ids are
modelled by `Json.null` (JSON serialization makes them identical). -/
def create_jsonrpc_error (id : Json) (code : Int) (message : String)
    (data : Option Json) : Json :=
  let base := [("code", Json.num code), ("message", Json.str message)]
  let errObj := match data with
    | none => base
    | some d => base ++ [("data", d)]
  Json.obj [("jsonrpc", Json.str "2.0"), ("error", Json.obj errObj), ("id", id)]

/-- `create_jsonrpc_success` from `app/utils.py`. -/
def create_jsonrpc_success (id : Json) (result : Json) : Json :=
  Json.obj [("jsonrpc", Json.str "2.0"), ("result", result), ("id", id)]

/-- The data of an `RPCException` (`app/utils.py`).  The `id` field is `Json`;
`Json.null` plays the role of Python `None` (the two coincide on the wire and
`request_data.get("id")` cannot distinguish an absent id from a null id). -/
structure RPCError where
  code : Int
  message : String
  id : Json
  data : Option Json

/-- `get_params` from `app/utils.py`: absent or `None` params become `{}`;
object or list params pass through; anything else raises `RPCException`
with code `JSON_RPC_INVALID_PARAMS` and the request's id. -/
def get_params (requestFields : List (String × Json)) : Except RPCError Json :=
  match (jget requestFields "params").getD Json.null with
  | Json.null => .ok (Json.obj [])
  | Json.obj fs => .ok (Json.obj fs)
  | Json.arr xs => .ok (Json.arr xs)
  | _ => .error { code := JSON_RPC_INVALID_PARAMS,
                  message := "Invalid params: Must be object or array.",
                  id := (jget requestFields "id").getD Json.null,
                  data := none }

/-- The names of the `@api_method_handler`-decorated RPC handlers defined at
top level in `app/routes.py`. -/
def routesHandlerNames : List String :=
  ["puppeteer_navigate", "puppeteer_get_page_title", "puppeteer_get_current_url",
   "puppeteer_take_page_screenshot", "puppeteer_get_page_content",
   "puppeteer_click_element", "puppeteer_fill_form_field",
   "puppeteer_get_element_text", "puppeteer_execute_javascript",
   "puppeteer_create_context", "puppeteer_switch_context",
   "puppeteer_close_context", "puppeteer_get_element_attribute",
   "puppeteer_get_console_logs"]

/-- The remaining module-level attributes of `app/routes.py` visible to
`hasattr` — imported names, module globals and helper functions.  (CPython
implicit dunder attributes such as `__name__` are left out of the model;
they only add further non-handler names.) -/
def routesOtherAttrNames : List String :=
  ["BrowserManager", "ConfigLoader", "api_method_handler", "RPCException",
   "BROWSER_OPERATION_ERROR", "PAGE_NOT_AVAILABLE_ERROR",
   "JSON_RPC_INVALID_PARAMS", "ELEMENT_NOT_FOUND_ERROR",
   "Dict", "Any", "Optional", "Union", "List",
   "base64", "os", "logging", "logger",
   "_browser_manager", "_config_loader",
   "initialize_routes", "_get_active_page_or_raise"]

/-- `hasattr(routes, name)` over the modelled module attributes. -/
def routesHasAttr (name : String) : Bool :=
  routesHandlerNames.contains name || routesOtherAttrNames.contains name

/-- Boolean form of Python `request_data.get("jsonrpc") == "2.0"`. -/
def isTag20 : Option Json → Bool
  | some (Json.str s) => s == "2.0"
  | _ => false

/-- `method_name.replace(".", "_")` — single-character pattern, so it is the
character map sending `'.'` to `'_'`. -/
def dotsToUnderscores (s : String) : String :=
  String.mk (s.data.map (fun c => if c = '.' then '_' else c))

/-- Result of one call of the `/jsonrpc` endpoint:
* `envelope r`  — the handler returned the JSON-RPC response `r`;
* `dispatched h p i` — validation passed and the request was handed to the
  registered (decorated) handler named `h` with validated params `p` and
  correlation id `i` (the decorated wrapper always returns an envelope, so
  this is the success exit of the dispatch layer);
* `raised e` — a Python exception of type `e` escaped `jsonrpc_handler`
  (surfacing as a framework-level 500, not a JSON-RPC envelope). -/
inductive Outcome where
  | envelope (response : Json)
  | dispatched (handlerName : String) (params : Json) (rpcId : Json)
  | raised (exnName : String)

/-- `jsonrpc_handler` from `main.py`, up to and including dispatch.
Faithful points to note against the source:
* `rpc_id = request_data.get("id")` runs before the `isinstance(request_data,
  dict)` test, so a body that parses to a non-object (`list`, `str`, `int`,
  `bool`, `None`) raises `AttributeError` (no `.get`) out of the handler;
* a present but non-string `method` value raises `AttributeError` at
  `method_name.replace(".", "_")`;
* the method-existence test is `hasattr(routes, api_function_name)`, checked
  before `get_params`;
* a module attribute that is not a decorated handler still passes `hasattr`;
  calling or awaiting it raises `TypeError`, which the trailing generic
  `except Exception` turns into an internal-error envelope (the concrete
  Python `TypeError` text is abstracted to `"TypeError"`). -/
def jsonrpc_handler (body : Option Json) : Outcome :=
  match body with
  | none =>
      .envelope (create_jsonrpc_error Json.null JSON_RPC_PARSE_ERROR "Parse error" none)
  | some requestData =>
    match requestData with
    | Json.obj fields =>
      let rpcId := (jget fields "id").getD Json.null
      if !(isTag20 (jget fields "jsonrpc")) || (jget fields "method").isNone then
        .envelope (create_jsonrpc_error rpcId JSON_RPC_INVALID_REQUEST "Invalid Request" none)
      else
        match jget fields "method" with
        | some (Json.str methodName) =>
          let apiFunctionName := dotsToUnderscores methodName
          -- if not hasattr(routes, api_function_name): return MethodNotFound
          if !(routesHasAttr apiFunctionName) then
            .envelope (create_jsonrpc_error rpcId JSON_RPC_METHOD_NOT_FOUND "Method not found" none)
          else
            match get_params fields with
            | .error e =>
                -- except RPCException: e.id = rpc_id; return e.to_json_response()
                .envelope (create_jsonrpc_error rpcId e.code e.message e.data)
            | .ok params =>
                if routesHandlerNames.contains apiFunctionName then
                  .dispatched apiFunctionName params rpcId
                else
                  .envelope (create_jsonrpc_error rpcId JSON_RPC_INTERNAL_ERROR
                    "Server error: TypeError" none)
        | some _ => .raised "AttributeError"
        | none => .raised "AttributeError"
    | _ =>
      -- request_data.get("id") on a non-dict: AttributeError escapes
      .raised "AttributeError"

/-! ## Session registry: `BrowserManager` (`app/browser_manager.py`) -/

/-- A Playwright page object: its own identity handle and the identity handle
of the `BrowserContext` that created it (`page.context`). -/
structure PageObj where
  handle : Nat
  ctx : Nat
  deriving Repr, DecidableEq

/-- Python `dict` as an insertion-ordered association list. -/
abbrev Dict (α : Type) := List (String × α)

/-- `d[k]` / `d.get(k)`: first entry with the key (keys are unique in a
Python dict, and `dinsert` preserves that). -/
def dget {α : Type} : Dict α → String → Option α
  | [], _ => none
  | (k, v) :: t, key => if k = key then some v else dget t key

/-- `k in d`. -/
def dmem {α : Type} (d : Dict α) (k : String) : Bool := (dget d k).isSome

/-- `d[k] = v`: replaces in place if the key exists (keeping its position,
as a Python dict does), else appends. -/
def dinsert {α : Type} : Dict α → String → α → Dict α
  | [], k, v => [(k, v)]
  | (k', v') :: t, k, v => if k' = k then (k, v) :: t else (k', v') :: dinsert t k v

/-- `d.pop(k)`: drops the entry with key `k` (a dict holds at most one),
keeping the order of the remaining entries. -/
def dremove {α : Type} : Dict α → String → Dict α
  | [], _ => []
  | (k', v') :: t, k => if k' = k then dremove t k else (k', v') :: dremove t k

/-- Python truthiness of an optional string (`None` and `""` are falsy). -/
def pyTruthyStr : Option String → Bool
  | none => false
  | some s => s != ""

/-- Python `x or dflt` for an optional string `x` (used for
`context_id or f"..."` and `page_id or f"..."` defaulting). -/
def pyStrOr (x : Option String) (dflt : String) : String :=
  match x with
  | some s => if s = "" then dflt else s
  | none => dflt

/-- `pat.isPrefixOf`-style test: does `s` start with `pat`?  (Model of
Python `str.startswith`.) -/
def charsBeginWith : List Char → List Char → Bool
  | [], _ => true
  | _ :: _, [] => false
  | p :: ps, c :: cs => p == c && charsBeginWith ps cs

/-- Python `s.startswith(pat)`. -/
def strBeginsWith (s pat : String) : Bool := charsBeginWith pat.data s.data

/-- The mutable state of a `BrowserManager`.  `browser` is the Playwright
browser handle (`none` = not started / closed; connectedness is not modelled
separately, see the header note).  `closedPageHandles` / `closedContextHandles`
record every object on which `.close()` was awaited.  `fresh` supplies
object-identity handles. -/
structure BMState where
  browser : Option Nat
  contexts : Dict Nat
  pages : Dict PageObj
  activeContextId : Option String
  activePageId : Option String
  contextCounter : Nat
  pageCounter : Nat
  closedPageHandles : List Nat
  closedContextHandles : List Nat
  fresh : Nat
  deriving Repr, DecidableEq

/-- `BrowserManager.__init__`. -/
def initState : BMState where
  browser := none
  contexts := []
  pages := []
  activeContextId := none
  activePageId := none
  contextCounter := 0
  pageCounter := 0
  closedPageHandles := []
  closedContextHandles := []
  fresh := 0

/-- Exceptions raised by registry operations. -/
inductive BMError where
  | valueError (msg : String)
  | keyError (key : String)
  | connectionError (msg : String)
  deriving Repr, DecidableEq

/-- The body of `BrowserManager.create_page` from the point where the target
context id has been resolved (`context = self._contexts[target_context_id]`
onwards).  Both call sites reach this code only with a live target context;
the `keyError` branch mirrors the Python subscript. -/
def create_page_in (s : BMState) (targetContextId : String) (pageId : Option String) :
    Except BMError (BMState × String) :=
  match dget s.contexts targetContextId with
  | none => .error (.keyError targetContextId)
  | some ctxHandle =>
    let newPage : PageObj := { handle := s.fresh, ctx := ctxHandle }
    let pageCounter' := s.pageCounter + 1
    let pId := pyStrOr pageId ("default_page_" ++ toString pageCounter')
    let pages' := dinsert s.pages pId newPage
    -- if not self._active_page_id or page_id and page_id.startswith("initial_page_for_")
    let makeActive := !(pyTruthyStr s.activePageId) ||
      (pyTruthyStr pageId && strBeginsWith (pageId.getD "") "initial_page_for_")
    let active' := if makeActive then some pId else s.activePageId
    .ok ({ s with
            pages := pages'
            pageCounter := pageCounter'
            activePageId := active'
            fresh := s.fresh + 1 }, pId)

/-- `BrowserManager.create_context` once the browser is known to be running
(the launch-if-needed preamble is in `create_context` below).  Creates the
context, registers it under the caller-supplied or generated id, activates it
when no context is active or when it is the initial context, then creates the
context's initial page via `create_page(context_id=c_id,
page_id=f"initial_page_for_{c_id}")` — whose target is the just-registered
live context, i.e. exactly `create_page_in`. -/
def create_context_core (s : BMState) (contextId : Option String) :
    Except BMError (BMState × String) :=
  if s.browser.isNone then
    .error (.connectionError "Browser is not available after attempting to start.")
  else
    let newCtxHandle := s.fresh
    let contextCounter' := s.contextCounter + 1
    let cId := pyStrOr contextId ("default_ctx_" ++ toString contextCounter')
    let contexts' := dinsert s.contexts cId newCtxHandle
    -- if not self._active_context_id or context_id == "initial_default_context"
    let active' :=
      if !(pyTruthyStr s.activeContextId) || contextId == some "initial_default_context" then
        some cId
      else s.activeContextId
    let s1 := { s with
                 contexts := contexts'
                 contextCounter := contextCounter'
                 activeContextId := active'
                 fresh := s.fresh + 1 }
    match create_page_in s1 cId (some ("initial_page_for_" ++ cId)) with
    | .error e => .error e
    | .ok (s2, _) => .ok (s2, cId)

/-- `BrowserManager.start_browser`: no-op when the browser is already running,
else launch (always succeeds in the model — driver failures are external) and
create the initial default context. -/
def start_browser (s : BMState) : Except BMError BMState :=
  if s.browser.isSome then .ok s
  else
    let s1 := { s with browser := some s.fresh, fresh := s.fresh + 1 }
    match create_context_core s1 (some "initial_default_context") with
    | .error e => .error e
    | .ok (s2, _) => .ok s2

/-- `BrowserManager.create_context`: starts the browser first if needed. -/
def create_context (s : BMState) (contextId : Option String) :
    Except BMError (BMState × String) :=
  if s.browser.isSome then create_context_core s contextId
  else
    match start_browser s with
    | .error e => .error e
    | .ok s1 => create_context_core s1 contextId

/-- `BrowserManager.create_page`.  Resolves the target context
(`context_id or self._active_context_id`); on an unresolvable or dead target,
self-heals by creating a default context when no context is active, else
raises `ValueError`. -/
def create_page (s : BMState) (contextId pageId : Option String) :
    Except BMError (BMState × String) :=
  let target := match contextId with
    | some cid => if cid = "" then s.activeContextId else some cid
    | none => s.activeContextId
  -- if not target_context_id or target_context_id not in self._contexts
  if !(pyTruthyStr target) || !(dmem s.contexts (target.getD "")) then
    if !(pyTruthyStr s.activeContextId) then
      match create_context s none with
      | .error e => .error e
      | .ok (s1, newTarget) => create_page_in s1 newTarget pageId
    else
      .error (.valueError ("Context ID '" ++ target.getD "None" ++ "' not found."))
  else
    create_page_in s (target.getD "") pageId

/-- `BrowserManager.get_active_page`: the page under the active page id when
that id is truthy and tracked, else — best-effort fallback — the first tracked
page (`next(iter(self._pages.values()))`), else `None`. -/
def get_active_page (s : BMState) : Option PageObj :=
  if pyTruthyStr s.activePageId && dmem s.pages (s.activePageId.getD "") then
    dget s.pages (s.activePageId.getD "")
  else
    match s.pages with
    | [] => none
    | kv :: _ => some kv.2

/-- `BrowserManager.get_page_by_id`. -/
def get_page_by_id (s : BMState) (pageId : String) : Option PageObj :=
  dget s.pages pageId

/-- `BrowserManager.get_context_by_id`. -/
def get_context_by_id (s : BMState) (contextId : String) : Option Nat :=
  dget s.contexts contextId

/-- The scan in `set_active_context`: the first tracked page owned by the
given context handle, in dict iteration order. -/
def findOwnedPage (pages : Dict PageObj) (ctxHandle : Nat) : Option (String × PageObj) :=
  pages.find? (fun kv => kv.2.ctx == ctxHandle)

/-- The scan in `set_active_page`: the first context id whose context object
is the given handle. -/
def findCtxId (contexts : Dict Nat) (h : Nat) : Option String :=
  (contexts.find? (fun kv => kv.2 == h)).map (fun kv => kv.1)

/-- `BrowserManager.set_active_context`: on a live id, switch the active
context, reset the active page, then adopt the first tracked page owned by
the new context if any (the `context.pages` branch only logs).  Returns the
Python boolean result. -/
def set_active_context (s : BMState) (contextId : String) : BMState × Bool :=
  match dget s.contexts contextId with
  | some ctxHandle =>
    let newActivePage := (findOwnedPage s.pages ctxHandle).map (fun kv => kv.1)
    ({ s with activeContextId := some contextId, activePageId := newActivePage }, true)
  | none => (s, false)

/-- `BrowserManager.set_active_page`: on a live id, switch the active page and
align the active context with the page's owning context when that context is
tracked (first matching id in dict order; left unchanged when the owner is
not tracked, as the Python loop then assigns nothing). -/
def set_active_page (s : BMState) (pageId : String) : BMState × Bool :=
  match dget s.pages pageId with
  | some page =>
    let newActiveCtx := match findCtxId s.contexts page.ctx with
      | some cid => some cid
      | none => s.activeContextId
    ({ s with activePageId := some pageId, activeContextId := newActiveCtx }, true)
  | none => (s, false)

/-- `BrowserManager.close_page`: pop and close the page if tracked; if it was
the active page, fall back to the first remaining page id if any. -/
def close_page (s : BMState) (pageId : String) : BMState × Bool :=
  match dget s.pages pageId with
  | some page =>
    let pages' := dremove s.pages pageId
    let closed' := s.closedPageHandles ++ [page.handle]
    let active' :=
      if s.activePageId = some pageId then
        match pages' with
        | [] => none
        | kv :: _ => some kv.1
      else s.activePageId
    ({ s with pages := pages', closedPageHandles := closed', activePageId := active' }, true)
  | none => (s, false)

/-- `BrowserManager.close_context`: pop the context, close every tracked page
whose `page.context` is this context (cascading, via `close_page`), close the
context object, and if it was active pick the first remaining context (if
any) and re-run `set_active_context` on it. -/
def close_context (s : BMState) (contextId : String) : BMState × Bool :=
  match dget s.contexts contextId with
  | some ctxHandle =>
    let s1 := { s with contexts := dremove s.contexts contextId }
    let pagesToClose := (s1.pages.filter (fun kv => kv.2.ctx == ctxHandle)).map (fun kv => kv.1)
    let s2 := pagesToClose.foldl (fun acc pid => (close_page acc pid).1) s1
    let s3 := { s2 with closedContextHandles := s2.closedContextHandles ++ [ctxHandle] }
    let s4 :=
      if s3.activeContextId = some contextId then
        match s3.contexts with
        | [] => { s3 with activeContextId := none }
        | kv :: _ => (set_active_context { s3 with activeContextId := some kv.1 } kv.1).1
      else s3
    (s4, true)
  | none => (s, false)

/-- `BrowserManager.close_browser`: close the driver handle and clear all
tracking and selection state. -/
def close_browser (s : BMState) : BMState :=
  { s with
     browser := none
     contexts := []
     pages := []
     activeContextId := none
     activePageId := none }

/-! ## RPC route layer (`app/routes.py`): `puppeteer_close_context`
composed with the `api_method_handler` decorator (`app/utils.py`). -/

/-- `puppeteer_close_context` from `app/routes.py`, as wrapped by
`api_method_handler`, over an explicit registry state (the Python code reads
the module-global `_browser_manager`; the model threads the state, and the
`if not _browser_manager` guard is vacuous once the state is supplied).

Faithful control flow:
* `params.get("context_id")` must be a truthy string, else
  `RPCException(JSON_RPC_INVALID_PARAMS, id=rpc_id)`;
* `close_context` returning `False` raises
  `RPCException(BROWSER_OPERATION_ERROR, "Failed to close context ID
  '<id>'. Context not found or already closed.", id=rpc_id)` inside the `try`,
  which the function's own `except Exception` catches and re-raises as
  `RPCException(BROWSER_OPERATION_ERROR, "Failed to close context: " +
  str(e), id=rpc_id)`;
* the decorator turns a raised `RPCException` into an error envelope with id
  `rpc_id if e.id is None else e.id`, and a normal return into a success
  envelope.
A list-shaped `params` would raise `AttributeError` at `.get` and yield an
internal-error envelope via the decorator; non-object `params` other than a
list cannot reach a handler (`get_params` rejects them). -/
def puppeteer_close_context (s : BMState) (params : Json) (rpcId : Json) :
    BMState × Json :=
  match params with
  | Json.obj fs =>
    let contextIdJson := (jget fs "context_id").getD Json.null
    match contextIdJson with
    | Json.str cid =>
      if cid = "" then
        (s, create_jsonrpc_error rpcId JSON_RPC_INVALID_PARAMS
          "'context_id' parameter is required and must be a string." none)
      else
        let res := close_context s cid
        if res.2 then
          (res.1, create_jsonrpc_success rpcId
            (Json.obj [("status", Json.str "success"),
                       ("closed_context_id", Json.str cid)]))
        else
          (res.1, create_jsonrpc_error rpcId BROWSER_OPERATION_ERROR
            ("Failed to close context: Failed to close context ID '" ++ cid ++
             "'. Context not found or already closed.") none)
    | _ =>
      (s, create_jsonrpc_error rpcId JSON_RPC_INVALID_PARAMS
        "'context_id' parameter is required and must be a string." none)
  | _ =>
    (s, create_jsonrpc_error rpcId JSON_RPC_INTERNAL_ERROR
      "Internal server error: AttributeError" none)

/-- Is a response an error envelope (has an `"error"` member)? -/
def isErrorEnvelope (j : Json) : Bool :=
  match j with
  | Json.obj fs => (jget fs "error").isSome
  | _ => false

/-- Is a response a success envelope (has a `"result"` member)? -/
def isSuccessEnvelope (j : Json) : Bool :=
  match j with
  | Json.obj fs => (jget fs "result").isSome
  | _ => false

/-! ## Dictionary and registry lemmas -/

theorem dget_dinsert_self {α : Type} (d : Dict α) (k : String) (v : α) :
    dget (dinsert d k v) k = some v := by
  induction d with
  | nil => simp [dinsert, dget]
  | cons kv t ih =>
    by_cases h : kv.1 = k
    · simp [dinsert, h, dget]
    · simp [dinsert, h, dget, ih]

theorem dget_dremove_self {α : Type} (d : Dict α) (q : String) :
    dget (dremove d q) q = none := by
  induction d with
  | nil => rfl
  | cons kv t ih =>
    rcases kv with ⟨k1, v1⟩
    by_cases h1 : k1 = q
    · simpa [dremove, h1] using ih
    · simp [dremove, h1, dget, ih]

theorem dget_dremove_ne {α : Type} (d : Dict α) (q k : String) (h : k ≠ q) :
    dget (dremove d q) k = dget d k := by
  induction d with
  | nil => rfl
  | cons kv t ih =>
    rcases kv with ⟨k1, v1⟩
    by_cases h1 : k1 = q
    · have h3 : ¬ k1 = k := fun he => h (by rw [← he, h1])
      have h4 : ¬ q = k := fun he => h he.symm
      simp [dremove, h1, dget, h3, h4, ih]
    · by_cases h3 : k1 = k
      · subst h3
        simp [dremove, h1, dget, h]
      · simp [dremove, h1, dget, h3, ih]

theorem dget_of_mem_nodup {α : Type} {d : Dict α} {k : String} {v : α}
    (hmemb : (k, v) ∈ d) (hnd : (d.map Prod.fst).Nodup) : dget d k = some v := by
  induction d with
  | nil => cases hmemb
  | cons kv t ih =>
    have hnd2 : (kv.1 :: t.map Prod.fst).Nodup := by simpa using hnd
    have hnd' := List.nodup_cons.mp hnd2
    rcases List.mem_cons.mp hmemb with h | h
    · rw [← h]
      simp [dget]
    · have hk : kv.1 ≠ k := by
        intro he
        have hmm : k ∈ t.map Prod.fst := List.mem_map.mpr ⟨(k, v), h, rfl⟩
        exact hnd'.1 (by rw [he]; exact hmm)
      simp [dget, hk, ih h hnd'.2]

theorem close_page_contexts (s : BMState) (pid : String) :
    ((close_page s pid).1).contexts = s.contexts := by
  unfold close_page
  cases h : dget s.pages pid <;> simp

theorem close_page_browser (s : BMState) (pid : String) :
    ((close_page s pid).1).browser = s.browser := by
  unfold close_page
  cases h : dget s.pages pid <;> simp

theorem close_page_pages_mono (s : BMState) (q k : String)
    (h : dget s.pages k = none) : dget ((close_page s q).1).pages k = none := by
  unfold close_page
  cases hq : dget s.pages q with
  | none => simpa using h
  | some p =>
    by_cases hk : k = q
    · simpa [hk] using dget_dremove_self s.pages q
    · simpa using (dget_dremove_ne s.pages q k hk).trans h

theorem close_page_pages_remove (s : BMState) (q : String) :
    dget ((close_page s q).1).pages q = none := by
  unfold close_page
  cases hq : dget s.pages q with
  | none => simpa using hq
  | some p => simpa using dget_dremove_self s.pages q

theorem foldClose_contexts (L : List String) (s : BMState) :
    (L.foldl (fun acc pid => (close_page acc pid).1) s).contexts = s.contexts := by
  induction L generalizing s with
  | nil => rfl
  | cons q t ih => simp [List.foldl, ih, close_page_contexts]

theorem foldClose_pages_mono (L : List String) (s : BMState) (k : String)
    (h : dget s.pages k = none) :
    dget ((L.foldl (fun acc pid => (close_page acc pid).1) s).pages) k = none := by
  induction L generalizing s with
  | nil => exact h
  | cons q t ih => exact ih _ (close_page_pages_mono _ _ _ h)

theorem foldClose_pages_of_mem (L : List String) (s : BMState) (k : String)
    (h : k ∈ L) :
    dget ((L.foldl (fun acc pid => (close_page acc pid).1) s).pages) k = none := by
  induction L generalizing s with
  | nil => cases h
  | cons q t ih =>
    rw [List.foldl_cons]
    rcases List.mem_cons.mp h with he | ht
    · subst he
      exact foldClose_pages_mono _ _ _ (close_page_pages_remove _ _)
    · exact ih _ ht

theorem mem_owned_keys {pages : Dict PageObj} {pid : String} {p : PageObj} {h : Nat}
    (hp : dget pages pid = some p) (hc : p.ctx = h) :
    pid ∈ (pages.filter (fun kv => kv.2.ctx == h)).map (fun kv => kv.1) := by
  induction pages with
  | nil => simp [dget] at hp
  | cons kv t ih =>
    rw [List.filter_cons]
    by_cases hk : kv.1 = pid
    · have hv : kv.2 = p := by
        simpa [dget, hk] using hp
      have hf : (kv.2.ctx == h) = true := by simp [hv, hc]
      rw [if_pos hf]
      rw [List.map_cons]
      exact List.mem_cons.mpr (Or.inl hk.symm)
    · have hp' : dget t pid = some p := by
        simpa [dget, hk] using hp
      by_cases hf : (kv.2.ctx == h) = true
      · rw [if_pos hf, List.map_cons]
        exact List.mem_cons.mpr (Or.inr (ih hp'))
      · rw [if_neg hf]
        exact ih hp'

theorem mem_of_dget {α : Type} {d : Dict α} {k : String} {v : α}
    (h : dget d k = some v) : (k, v) ∈ d := by
  induction d with
  | nil => simp [dget] at h
  | cons kv t ih =>
    rcases kv with ⟨k1, v1⟩
    by_cases h1 : k1 = k
    · have hv : v1 = v := by simpa [dget, h1] using h
      subst h1
      subst hv
      exact List.mem_cons_self _ _
    · exact List.mem_cons.mpr (Or.inr (ih (by simpa [dget, h1] using h)))

theorem findOwnedPage_spec {pages : Dict PageObj} {h : Nat} {e : String × PageObj}
    (hf : findOwnedPage pages h = some e) : e.2.ctx = h ∧ e ∈ pages := by
  unfold findOwnedPage at hf
  exact ⟨by simpa using List.find?_some hf, List.mem_of_find?_eq_some hf⟩

theorem findOwnedPage_isSome {pages : Dict PageObj} {h : Nat} {pid : String} {p : PageObj}
    (hp : (pid, p) ∈ pages) (hc : p.ctx = h) : (findOwnedPage pages h).isSome := by
  unfold findOwnedPage
  rw [List.find?_isSome]
  exact ⟨(pid, p), hp, by simp [hc]⟩

theorem findCtxId_spec {contexts : Dict Nat} {h : Nat} {cid : String}
    (hf : findCtxId contexts h = some cid) : (cid, h) ∈ contexts := by
  unfold findCtxId at hf
  cases he : contexts.find? (fun kv => kv.2 == h) with
  | none => rw [he] at hf; cases hf
  | some e =>
    rw [he] at hf
    have h1 : e.1 = cid := by simpa using hf
    have h2 : e.2 = h := by simpa using List.find?_some he
    have h3 : e ∈ contexts := List.mem_of_find?_eq_some he
    rw [← h1, ← h2]
    exact h3

theorem str_data_append (a b : String) : (a ++ b).data = a.data ++ b.data := rfl

theorem str_append_ne_empty {a : String} (x : String) (ha : a.data ≠ []) :
    (a ++ x) ≠ "" := by
  intro h
  have h2 : a.data ++ x.data = [] := by
    rw [← str_data_append]
    exact congrArg String.data h
  exact ha (List.append_eq_nil.mp h2).1

theorem str_ne_of_head (c1 c2 : Char) (r1 r2 : List Char) {a b : String}
    (ha : a.data = c1 :: r1) (hb : b.data = c2 :: r2) (hc : c1 ≠ c2) : a ≠ b := by
  intro h
  have h2 : a.data = b.data := congrArg String.data h
  rw [ha, hb] at h2
  injection h2 with h3 _
  exact hc h3

theorem initial_page_ne_empty (x : String) : ("initial_page_for_" ++ x) ≠ "" :=
  str_append_ne_empty x (by decide)

theorem initial_page_ne_default_page (x y : String) :
    ("initial_page_for_" ++ x) ≠ ("default_page_" ++ y) :=
  str_ne_of_head 'i' 'd'
    ("nitial_page_for_".data ++ x.data) ("efault_page_".data ++ y.data)
    rfl rfl (by decide)

theorem pyTruthy_str_of_ne {s : String} (h : s ≠ "") : pyTruthyStr (some s) = true := by
  simp [pyTruthyStr, bne_iff_ne, h]

theorem pyStrOr_some {s : String} (d : String) (h : s ≠ "") : pyStrOr (some s) d = s := by
  simp [pyStrOr, h]

theorem set_active_context_maps (s : BMState) (cid : String) :
    ((set_active_context s cid).1).contexts = s.contexts ∧
    ((set_active_context s cid).1).pages = s.pages := by
  unfold set_active_context
  cases h : dget s.contexts cid <;> simp

theorem get_params_error_shape {f : List (String × Json)} {e : RPCError}
    (h : get_params f = .error e) :
    e.code = JSON_RPC_INVALID_PARAMS ∧ e.id = (jget f "id").getD Json.null ∧
    e.data = none := by
  unfold get_params at h
  split at h
  · simp at h
  · simp at h
  · simp at h
  · injection h with h2
    subst h2
    exact ⟨rfl, rfl, rfl⟩

theorem isErrorEnvelope_create (i : Json) (c : Int) (m : String) (d : Option Json) :
    isErrorEnvelope (create_jsonrpc_error i c m d) = true := rfl

theorem isSuccessEnvelope_create_error (i : Json) (c : Int) (m : String) (d : Option Json) :
    isSuccessEnvelope (create_jsonrpc_error i c m d) = false := rfl

/-! ## Claims -/

/-- Claim C1 (refuted by the code — evidence of the code bug): a request body
that parses to non-object JSON (array, string, or number) makes
`jsonrpc_handler` raise `AttributeError` at `request_data.get("id")` — the
exception escapes the handler instead of becoming an error envelope, because
that line runs before the `isinstance(request_data, dict)` check that was
written to catch exactly these bodies.  An unparseable body, by contrast, is
correctly converted to a ParseError envelope with null id. -/
theorem c1_nonobject_body_raises :
    jsonrpc_handler (some (Json.arr [Json.num 1, Json.num 2, Json.num 3])) =
      Outcome.raised "AttributeError" ∧
    jsonrpc_handler (some (Json.str "hello")) = Outcome.raised "AttributeError" ∧
    jsonrpc_handler (some (Json.num 5)) = Outcome.raised "AttributeError" ∧
    jsonrpc_handler none =
      Outcome.envelope (create_jsonrpc_error Json.null JSON_RPC_PARSE_ERROR "Parse error" none) :=
  ⟨rfl, rfl, rfl, rfl⟩

/-- Claim C2 (counterexample): the request
`{"jsonrpc":"2.0","method":"no.such","params":5,"id":1}` has params that are
neither an object nor a list AND an unregistered method, yet the dispatcher
answers MethodNotFound (-32601), not InvalidParams (-32602): method
resolution runs before params validation, contradicting the claimed
(c)-before-(d) order. -/
theorem c2_counterexample :
    jsonrpc_handler (some (Json.obj [("jsonrpc", Json.str "2.0"), ("method", Json.str "no.such"), ("params", Json.num 5), ("id", Json.num 1)])) =
      Outcome.envelope (create_jsonrpc_error (Json.num 1) JSON_RPC_METHOD_NOT_FOUND "Method not found" none) ∧
    JSON_RPC_METHOD_NOT_FOUND ≠ JSON_RPC_INVALID_PARAMS :=
  ⟨rfl, by decide⟩

/-- Claim C2 as amended: for bodies that parse to JSON objects the pipeline
order is (a) parse, (b) protocol envelope → InvalidRequest, (d) method
resolution → MethodNotFound, and only then (c) params shape → InvalidParams;
in particular an invalid-params request with an unregistered method gets
MethodNotFound. -/
theorem c2_amended :
    (∀ (fields : List (String × Json)),
      (!(isTag20 (jget fields "jsonrpc")) || (jget fields "method").isNone) = true →
      jsonrpc_handler (some (Json.obj fields)) =
        Outcome.envelope (create_jsonrpc_error ((jget fields "id").getD Json.null)
          JSON_RPC_INVALID_REQUEST "Invalid Request" none)) ∧
    (∀ (fields : List (String × Json)) (m : String),
      isTag20 (jget fields "jsonrpc") = true →
      jget fields "method" = some (Json.str m) →
      routesHasAttr (dotsToUnderscores m) = false →
      jsonrpc_handler (some (Json.obj fields)) =
        Outcome.envelope (create_jsonrpc_error ((jget fields "id").getD Json.null)
          JSON_RPC_METHOD_NOT_FOUND "Method not found" none)) ∧
    (∀ (fields : List (String × Json)) (m : String) (e : RPCError),
      isTag20 (jget fields "jsonrpc") = true →
      jget fields "method" = some (Json.str m) →
      routesHasAttr (dotsToUnderscores m) = true →
      get_params fields = .error e →
      e.code = JSON_RPC_INVALID_PARAMS ∧
      jsonrpc_handler (some (Json.obj fields)) =
        Outcome.envelope (create_jsonrpc_error ((jget fields "id").getD Json.null)
          e.code e.message e.data)) := by
  refine ⟨?_, ?_, ?_⟩
  · intro fields h
    simp [jsonrpc_handler, h]
  · intro fields m h1 h2 h3
    simp [jsonrpc_handler, h1, h2, h3]
  · intro fields m e h1 h2 h3 h4
    exact ⟨(get_params_error_shape h4).1, by simp [jsonrpc_handler, h1, h2, h3, h4]⟩

/-- Claim C2 amended, witnessed at concrete requests: a body missing the tag,
an unregistered-method body with bad params, and a registered-method body
with bad params. -/
theorem c2_amended_witness :
    jsonrpc_handler (some (Json.obj [("method", Json.str "x")])) =
      Outcome.envelope (create_jsonrpc_error Json.null JSON_RPC_INVALID_REQUEST "Invalid Request" none) ∧
    jsonrpc_handler (some (Json.obj [("jsonrpc", Json.str "2.0"), ("method", Json.str "nope"), ("params", Json.num 3)])) =
      Outcome.envelope (create_jsonrpc_error Json.null JSON_RPC_METHOD_NOT_FOUND "Method not found" none) ∧
    jsonrpc_handler (some (Json.obj [("jsonrpc", Json.str "2.0"), ("method", Json.str "puppeteer.navigate"), ("params", Json.num 3), ("id", Json.num 9)])) =
      Outcome.envelope (create_jsonrpc_error (Json.num 9) JSON_RPC_INVALID_PARAMS "Invalid params: Must be object or array." none) := by
  refine ⟨c2_amended.1 _ rfl, c2_amended.2.1 _ "nope" rfl rfl rfl, ?_⟩
  exact (c2_amended.2.2
    [("jsonrpc", Json.str "2.0"), ("method", Json.str "puppeteer.navigate"), ("params", Json.num 3), ("id", Json.num 9)]
    "puppeteer.navigate"
    { code := JSON_RPC_INVALID_PARAMS, message := "Invalid params: Must be object or array.", id := Json.num 9, data := none }
    rfl rfl rfl rfl).2

/-- Claim C7 (counterexample): `"initialize_routes"` is not a registered RPC
handler, yet dispatching it does not return MethodNotFound — the
`hasattr(routes, ...)` test accepts every module attribute, the dispatcher
calls the non-handler, and the resulting `TypeError` surfaces as an
InternalError envelope (-32603, not -32601). -/
theorem c7_counterexample :
    jsonrpc_handler (some (Json.obj [("jsonrpc", Json.str "2.0"), ("method", Json.str "initialize_routes"), ("id", Json.num 2)])) =
      Outcome.envelope (create_jsonrpc_error (Json.num 2) JSON_RPC_INTERNAL_ERROR "Server error: TypeError" none) ∧
    routesHandlerNames.contains "initialize_routes" = false ∧
    JSON_RPC_INTERNAL_ERROR ≠ JSON_RPC_METHOD_NOT_FOUND :=
  ⟨rfl, rfl, by decide⟩

/-- Claim C7 as amended: resolution (replace dots by underscores, then module
attribute lookup) is a deterministic function; a name matching no module
attribute yields MethodNotFound; a name matching a registered handler is
dispatched to exactly that handler; but a name matching a non-handler module
attribute (an import or helper) is dispatched to the attribute and surfaces
as an InternalError envelope instead of MethodNotFound. -/
theorem c7_amended :
    (∀ (fields : List (String × Json)) (m : String),
      isTag20 (jget fields "jsonrpc") = true →
      jget fields "method" = some (Json.str m) →
      routesHasAttr (dotsToUnderscores m) = false →
      jsonrpc_handler (some (Json.obj fields)) =
        Outcome.envelope (create_jsonrpc_error ((jget fields "id").getD Json.null)
          JSON_RPC_METHOD_NOT_FOUND "Method not found" none)) ∧
    (∀ (fields : List (String × Json)) (m : String) (p : Json),
      isTag20 (jget fields "jsonrpc") = true →
      jget fields "method" = some (Json.str m) →
      routesHandlerNames.contains (dotsToUnderscores m) = true →
      get_params fields = .ok p →
      jsonrpc_handler (some (Json.obj fields)) =
        Outcome.dispatched (dotsToUnderscores m) p ((jget fields "id").getD Json.null)) ∧
    (∀ (fields : List (String × Json)) (m : String) (p : Json),
      isTag20 (jget fields "jsonrpc") = true →
      jget fields "method" = some (Json.str m) →
      routesHandlerNames.contains (dotsToUnderscores m) = false →
      routesOtherAttrNames.contains (dotsToUnderscores m) = true →
      get_params fields = .ok p →
      jsonrpc_handler (some (Json.obj fields)) =
        Outcome.envelope (create_jsonrpc_error ((jget fields "id").getD Json.null)
          JSON_RPC_INTERNAL_ERROR "Server error: TypeError" none)) := by
  refine ⟨?_, ?_, ?_⟩
  · intro fields m h1 h2 h3
    simp [jsonrpc_handler, h1, h2, h3]
  · intro fields m p h1 h2 h3 h4
    have h3' : dotsToUnderscores m ∈ routesHandlerNames := by simpa using h3
    simp [jsonrpc_handler, h1, h2, h3, h4, routesHasAttr, h3']
  · intro fields m p h1 h2 h3 h4 h5
    have h3' : dotsToUnderscores m ∉ routesHandlerNames := by simpa using h3
    have h4' : dotsToUnderscores m ∈ routesOtherAttrNames := by simpa using h4
    simp [jsonrpc_handler, h1, h2, h3, h4, h5, routesHasAttr, h3', h4']

/-- Claim C7 amended, witnessed: an unknown name, a registered handler name in
dotted form, and a non-handler module attribute. -/
theorem c7_amended_witness :
    jsonrpc_handler (some (Json.obj [("jsonrpc", Json.str "2.0"), ("method", Json.str "foo.bar")])) =
      Outcome.envelope (create_jsonrpc_error Json.null JSON_RPC_METHOD_NOT_FOUND "Method not found" none) ∧
    jsonrpc_handler (some (Json.obj [("jsonrpc", Json.str "2.0"), ("method", Json.str "puppeteer.close_context"), ("params", Json.obj [("context_id", Json.str "c")]), ("id", Json.num 4)])) =
      Outcome.dispatched "puppeteer_close_context" (Json.obj [("context_id", Json.str "c")]) (Json.num 4) ∧
    jsonrpc_handler (some (Json.obj [("jsonrpc", Json.str "2.0"), ("method", Json.str "os")])) =
      Outcome.envelope (create_jsonrpc_error Json.null JSON_RPC_INTERNAL_ERROR "Server error: TypeError" none) := by
  refine ⟨c7_amended.1 _ "foo.bar" rfl rfl rfl, ?_, ?_⟩
  · exact c7_amended.2.1 _ "puppeteer.close_context" _ rfl rfl rfl rfl
  · exact c7_amended.2.2 _ "os" _ rfl rfl rfl rfl rfl

/-- Claim C9: `start_browser` is idempotent — when a browser handle exists
(is running), the call is a no-op returning the state unchanged: same handle,
same contexts, pages and active selection, no second launch. -/
theorem c9_start_browser_idempotent (s : BMState) (h : s.browser.isSome = true) :
    start_browser s = Except.ok s := by
  unfold start_browser
  rw [if_pos h]

/-- Claim C9 witnessed on a running-browser state. -/
theorem c9_start_browser_idempotent_witness :
    start_browser { initState with browser := some 0, fresh := 1 } =
      Except.ok { initState with browser := some 0, fresh := 1 } :=
  c9_start_browser_idempotent _ rfl

/-- Claim C6 (counterexample): the `puppeteer.close_context` call on the
never-created context id `"ghost"` produces an error envelope with the
application code `BROWSER_OPERATION_ERROR` (-32000) — not the claimed
non-error "not found" status envelope. -/
theorem c6_counterexample :
    (puppeteer_close_context { initState with browser := some 0, fresh := 1 } (Json.obj [("context_id", Json.str "ghost")]) (Json.num 7)).2 =
      create_jsonrpc_error (Json.num 7) BROWSER_OPERATION_ERROR "Failed to close context: Failed to close context ID 'ghost'. Context not found or already closed." none ∧
    isErrorEnvelope ((puppeteer_close_context { initState with browser := some 0, fresh := 1 } (Json.obj [("context_id", Json.str "ghost")]) (Json.num 7)).2) = true ∧
    isSuccessEnvelope ((puppeteer_close_context { initState with browser := some 0, fresh := 1 } (Json.obj [("context_id", Json.str "ghost")]) (Json.num 7)).2) = false :=
  ⟨rfl, rfl, rfl⟩

/-- Claim C6 as amended: closing an unknown context id leaves the registry
unchanged and returns an error envelope with code `BROWSER_OPERATION_ERROR`
(-32000); the non-error "not found" status of the claim is not what the RPC
layer does. -/
theorem c6_amended (s : BMState) (cid : String) (rpcId : Json)
    (hcid : cid ≠ "") (hc : dget s.contexts cid = none) :
    (puppeteer_close_context s (Json.obj [("context_id", Json.str cid)]) rpcId).1 = s ∧
    (puppeteer_close_context s (Json.obj [("context_id", Json.str cid)]) rpcId).2 =
      create_jsonrpc_error rpcId BROWSER_OPERATION_ERROR
        ("Failed to close context: Failed to close context ID '" ++ cid ++
         "'. Context not found or already closed.") none ∧
    isErrorEnvelope ((puppeteer_close_context s (Json.obj [("context_id", Json.str cid)]) rpcId).2) = true := by
  have h2 : (close_context s cid).2 = false := by
    unfold close_context
    rw [hc]
  have h1 : (close_context s cid).1 = s := by
    unfold close_context
    rw [hc]
  simp [puppeteer_close_context, jget, hcid, h1, h2, isErrorEnvelope_create]

/-- Claim C6 amended, witnessed on the fresh running-browser state. -/
theorem c6_amended_witness :
    (puppeteer_close_context { initState with browser := some 0, fresh := 1 } (Json.obj [("context_id", Json.str "nope")]) Json.null).2 =
      create_jsonrpc_error Json.null BROWSER_OPERATION_ERROR
        "Failed to close context: Failed to close context ID 'nope'. Context not found or already closed." none :=
  (c6_amended { initState with browser := some 0, fresh := 1 } "nope" Json.null
    (by decide) rfl).2.1

/-- Claim C4 (counterexample): the state reached from `__init__` by
`start_browser()` then `create_context()` violates the selection invariant:
the new context's auto-created initial page becomes the active page (its id
starts with `"initial_page_for_"`) while the active context remains the
initial default context, so the active page's owner (handle 3) differs from
the active context (handle 1). -/
theorem c4_counterexample :
    start_browser initState = Except.ok (⟨some 0, [("initial_default_context", 1)], [("initial_page_for_initial_default_context", ⟨2, 1⟩)], some "initial_default_context", some "initial_page_for_initial_default_context", 1, 1, [], [], 3⟩ : BMState) ∧
    create_context (⟨some 0, [("initial_default_context", 1)], [("initial_page_for_initial_default_context", ⟨2, 1⟩)], some "initial_default_context", some "initial_page_for_initial_default_context", 1, 1, [], [], 3⟩ : BMState) none =
      Except.ok ((⟨some 0, [("initial_default_context", 1), ("default_ctx_2", 3)], [("initial_page_for_initial_default_context", ⟨2, 1⟩), ("initial_page_for_default_ctx_2", ⟨4, 3⟩)], some "initial_default_context", some "initial_page_for_default_ctx_2", 2, 2, [], [], 5⟩ : BMState), "default_ctx_2") ∧
    (⟨some 0, [("initial_default_context", 1), ("default_ctx_2", 3)], [("initial_page_for_initial_default_context", ⟨2, 1⟩), ("initial_page_for_default_ctx_2", ⟨4, 3⟩)], some "initial_default_context", some "initial_page_for_default_ctx_2", 2, 2, [], [], 5⟩ : BMState).activePageId = some "initial_page_for_default_ctx_2" ∧
    dget (⟨some 0, [("initial_default_context", 1), ("default_ctx_2", 3)], [("initial_page_for_initial_default_context", ⟨2, 1⟩), ("initial_page_for_default_ctx_2", ⟨4, 3⟩)], some "initial_default_context", some "initial_page_for_default_ctx_2", 2, 2, [], [], 5⟩ : BMState).pages "initial_page_for_default_ctx_2" = some ⟨4, 3⟩ ∧
    (⟨some 0, [("initial_default_context", 1), ("default_ctx_2", 3)], [("initial_page_for_initial_default_context", ⟨2, 1⟩), ("initial_page_for_default_ctx_2", ⟨4, 3⟩)], some "initial_default_context", some "initial_page_for_default_ctx_2", 2, 2, [], [], 5⟩ : BMState).activeContextId = some "initial_default_context" ∧
    dget (⟨some 0, [("initial_default_context", 1), ("default_ctx_2", 3)], [("initial_page_for_initial_default_context", ⟨2, 1⟩), ("initial_page_for_default_ctx_2", ⟨4, 3⟩)], some "initial_default_context", some "initial_page_for_default_ctx_2", 2, 2, [], [], 5⟩ : BMState).contexts "initial_default_context" = some 1 ∧
    (3 : Nat) ≠ 1 :=
  ⟨rfl, rfl, rfl, rfl, rfl, rfl, by decide⟩

/-- Claim C4 as amended: the invariant does not hold in all reachable states
(see the counterexample), but a successful `set_active_page(P)` whose page's
owning context is tracked (context ids being distinct) re-establishes it:
afterwards the active page is `P` and the active context is `P`'s owner. -/
theorem c4_amended (s : BMState) (pid : String) (p : PageObj) (cid : String)
    (hp : dget s.pages pid = some p)
    (hf : findCtxId s.contexts p.ctx = some cid)
    (hnd : (s.contexts.map Prod.fst).Nodup) :
    (set_active_page s pid).2 = true ∧
    ((set_active_page s pid).1).activePageId = some pid ∧
    ((set_active_page s pid).1).activeContextId = some cid ∧
    dget ((set_active_page s pid).1).contexts cid = some p.ctx := by
  have hmem : (cid, p.ctx) ∈ s.contexts := findCtxId_spec hf
  have hdg : dget s.contexts cid = some p.ctx := dget_of_mem_nodup hmem hnd
  simp [set_active_page, hp, hf, hdg]

/-- Claim C4 amended, witnessed on a two-context state. -/
theorem c4_amended_witness :
    (set_active_page (⟨some 0, [("c1", 1), ("c2", 3)], [("p1", ⟨2, 1⟩), ("p2", ⟨4, 3⟩)], some "c1", some "p1", 2, 2, [], [], 5⟩ : BMState) "p2").2 = true ∧
    ((set_active_page (⟨some 0, [("c1", 1), ("c2", 3)], [("p1", ⟨2, 1⟩), ("p2", ⟨4, 3⟩)], some "c1", some "p1", 2, 2, [], [], 5⟩ : BMState) "p2").1).activePageId = some "p2" ∧
    ((set_active_page (⟨some 0, [("c1", 1), ("c2", 3)], [("p1", ⟨2, 1⟩), ("p2", ⟨4, 3⟩)], some "c1", some "p1", 2, 2, [], [], 5⟩ : BMState) "p2").1).activeContextId = some "c2" ∧
    dget ((set_active_page (⟨some 0, [("c1", 1), ("c2", 3)], [("p1", ⟨2, 1⟩), ("p2", ⟨4, 3⟩)], some "c1", some "p1", 2, 2, [], [], 5⟩ : BMState) "p2").1).contexts "c2" = some (PageObj.ctx ⟨4, 3⟩) :=
  c4_amended _ "p2" ⟨4, 3⟩ "c2" rfl rfl (by decide)

/-- Claim C3 (counterexample): from `__init__`, run `start_browser()`,
`create_context()`, `close_page` on the second context's only page, then
`set_active_context("default_ctx_2")` (which succeeds).  `get_active_page()`
then falls back to the first tracked page, which is owned by the initial
context (handle 1), not by `default_ctx_2` (handle 3). -/
theorem c3_counterexample :
    start_browser initState = Except.ok (⟨some 0, [("initial_default_context", 1)], [("initial_page_for_initial_default_context", ⟨2, 1⟩)], some "initial_default_context", some "initial_page_for_initial_default_context", 1, 1, [], [], 3⟩ : BMState) ∧
    create_context (⟨some 0, [("initial_default_context", 1)], [("initial_page_for_initial_default_context", ⟨2, 1⟩)], some "initial_default_context", some "initial_page_for_initial_default_context", 1, 1, [], [], 3⟩ : BMState) none =
      Except.ok ((⟨some 0, [("initial_default_context", 1), ("default_ctx_2", 3)], [("initial_page_for_initial_default_context", ⟨2, 1⟩), ("initial_page_for_default_ctx_2", ⟨4, 3⟩)], some "initial_default_context", some "initial_page_for_default_ctx_2", 2, 2, [], [], 5⟩ : BMState), "default_ctx_2") ∧
    close_page (⟨some 0, [("initial_default_context", 1), ("default_ctx_2", 3)], [("initial_page_for_initial_default_context", ⟨2, 1⟩), ("initial_page_for_default_ctx_2", ⟨4, 3⟩)], some "initial_default_context", some "initial_page_for_default_ctx_2", 2, 2, [], [], 5⟩ : BMState) "initial_page_for_default_ctx_2" =
      ((⟨some 0, [("initial_default_context", 1), ("default_ctx_2", 3)], [("initial_page_for_initial_default_context", ⟨2, 1⟩)], some "initial_default_context", some "initial_page_for_initial_default_context", 2, 2, [4], [], 5⟩ : BMState), true) ∧
    set_active_context (⟨some 0, [("initial_default_context", 1), ("default_ctx_2", 3)], [("initial_page_for_initial_default_context", ⟨2, 1⟩)], some "initial_default_context", some "initial_page_for_initial_default_context", 2, 2, [4], [], 5⟩ : BMState) "default_ctx_2" =
      ((⟨some 0, [("initial_default_context", 1), ("default_ctx_2", 3)], [("initial_page_for_initial_default_context", ⟨2, 1⟩)], some "default_ctx_2", none, 2, 2, [4], [], 5⟩ : BMState), true) ∧
    dget (⟨some 0, [("initial_default_context", 1), ("default_ctx_2", 3)], [("initial_page_for_initial_default_context", ⟨2, 1⟩)], some "default_ctx_2", none, 2, 2, [4], [], 5⟩ : BMState).contexts "default_ctx_2" = some 3 ∧
    get_active_page (⟨some 0, [("initial_default_context", 1), ("default_ctx_2", 3)], [("initial_page_for_initial_default_context", ⟨2, 1⟩)], some "default_ctx_2", none, 2, 2, [4], [], 5⟩ : BMState) = some ⟨2, 1⟩ ∧
    PageObj.ctx ⟨2, 1⟩ = 1 ∧ (1 : Nat) ≠ 3 :=
  ⟨rfl, rfl, rfl, rfl, rfl, rfl, rfl, by decide⟩

/-- Claim C3 as amended: after a successful `set_active_context(C)`, if some
tracked page is owned by `C` then `get_active_page()` returns a page owned by
`C`; only when `C` owns no tracked page can the best-effort fallback return
the first tracked page of another context (or none at all). -/
theorem c3_amended (s : BMState) (cid : String) (h : Nat) (pid : String) (p : PageObj)
    (hc : dget s.contexts cid = some h)
    (hp : dget s.pages pid = some p) (hpc : p.ctx = h)
    (hnd : (s.pages.map Prod.fst).Nodup)
    (hne : ∀ k ∈ s.pages.map Prod.fst, k ≠ "") :
    (set_active_context s cid).2 = true ∧
    ∃ q, get_active_page ((set_active_context s cid).1) = some q ∧ q.ctx = h := by
  have hmem : (pid, p) ∈ s.pages := mem_of_dget hp
  have hsome : (findOwnedPage s.pages h).isSome := findOwnedPage_isSome hmem hpc
  obtain ⟨e, he⟩ := Option.isSome_iff_exists.mp hsome
  obtain ⟨hectx, hemem⟩ := findOwnedPage_spec he
  have hkey : dget s.pages e.1 = some e.2 := dget_of_mem_nodup (by simpa using hemem) hnd
  have hne1 : e.1 ≠ "" := hne e.1 (List.mem_map.mpr ⟨e, hemem, rfl⟩)
  refine ⟨by simp [set_active_context, hc], e.2, ?_, hectx⟩
  simp [set_active_context, hc, get_active_page, he, pyTruthyStr, dmem, hkey,
    bne_iff_ne, hne1]

/-- Claim C3 amended, witnessed: switching to a context that owns a tracked
page adopts a page of that context. -/
theorem c3_amended_witness :
    (set_active_context (⟨some 0, [("c1", 1), ("c2", 3)], [("p1", ⟨2, 1⟩), ("p2", ⟨4, 3⟩)], some "c1", some "p1", 2, 2, [], [], 5⟩ : BMState) "c2").2 = true ∧
    ∃ q, get_active_page ((set_active_context (⟨some 0, [("c1", 1), ("c2", 3)], [("p1", ⟨2, 1⟩), ("p2", ⟨4, 3⟩)], some "c1", some "p1", 2, 2, [], [], 5⟩ : BMState) "c2").1) = some q ∧ q.ctx = 3 :=
  c3_amended _ "c2" 3 "p2" ⟨4, 3⟩ rfl rfl rfl (by decide) (by decide)

/-- Claim C5 (counterexample): `create_page()` on a running browser with an
empty registry succeeds but creates one context and TWO pages (the context's
auto-created initial page plus the requested page), and the returned page
`"default_page_2"` is not the active one — the active page is the initial
page.  This contradicts "exactly one new Page, both active". -/
theorem c5_counterexample :
    create_page (⟨some 0, [], [], none, none, 0, 0, [], [], 1⟩ : BMState) none none =
      Except.ok ((⟨some 0, [("default_ctx_1", 1)], [("initial_page_for_default_ctx_1", ⟨2, 1⟩), ("default_page_2", ⟨3, 1⟩)], some "default_ctx_1", some "initial_page_for_default_ctx_1", 1, 2, [], [], 4⟩ : BMState), "default_page_2") ∧
    (⟨some 0, [("default_ctx_1", 1)], [("initial_page_for_default_ctx_1", ⟨2, 1⟩), ("default_page_2", ⟨3, 1⟩)], some "default_ctx_1", some "initial_page_for_default_ctx_1", 1, 2, [], [], 4⟩ : BMState).pages.length = 2 ∧
    (⟨some 0, [("default_ctx_1", 1)], [("initial_page_for_default_ctx_1", ⟨2, 1⟩), ("default_page_2", ⟨3, 1⟩)], some "default_ctx_1", some "initial_page_for_default_ctx_1", 1, 2, [], [], 4⟩ : BMState).pages.length ≠ 1 ∧
    (⟨some 0, [("default_ctx_1", 1)], [("initial_page_for_default_ctx_1", ⟨2, 1⟩), ("default_page_2", ⟨3, 1⟩)], some "default_ctx_1", some "initial_page_for_default_ctx_1", 1, 2, [], [], 4⟩ : BMState).activePageId = some "initial_page_for_default_ctx_1" ∧
    (⟨some 0, [("default_ctx_1", 1)], [("initial_page_for_default_ctx_1", ⟨2, 1⟩), ("default_page_2", ⟨3, 1⟩)], some "default_ctx_1", some "initial_page_for_default_ctx_1", 1, 2, [], [], 4⟩ : BMState).activePageId ≠ some "default_page_2" :=
  ⟨rfl, rfl, by decide, rfl, by decide⟩

/-- Claim C5 as amended: `create_page()` with a running browser and an empty
registry (no contexts, no pages, no active selection) succeeds and
self-heals, producing exactly one new Context — which becomes active — and
exactly TWO new Pages: the context's auto-created initial page, which
becomes (and stays) the active page, and the requested page, whose id is
returned but which is not active. -/
theorem c5_amended (s : BMState) (hb : s.browser.isSome = true) (hctx : s.contexts = [])
    (hac : s.activeContextId = none) (hpg : s.pages = []) (hap : s.activePageId = none) :
    ∃ s2,
      create_page s none none =
        Except.ok (s2, "default_page_" ++ toString (s.pageCounter + 2)) ∧
      s2.contexts.map Prod.fst = ["default_ctx_" ++ toString (s.contextCounter + 1)] ∧
      s2.activeContextId = some ("default_ctx_" ++ toString (s.contextCounter + 1)) ∧
      s2.pages.map Prod.fst = ["initial_page_for_" ++ ("default_ctx_" ++ toString (s.contextCounter + 1)), "default_page_" ++ toString (s.pageCounter + 2)] ∧
      s2.activePageId = some ("initial_page_for_" ++ ("default_ctx_" ++ toString (s.contextCounter + 1))) ∧
      s2.activePageId ≠ some ("default_page_" ++ toString (s.pageCounter + 2)) := by
  obtain ⟨br, cs, ps, aci, api, cc, pc, cph, cch, fr⟩ := s
  simp only [] at hb hctx hac hpg hap
  subst hctx
  subst hac
  subst hpg
  subst hap
  obtain ⟨b, rfl⟩ : ∃ b, br = some b := Option.isSome_iff_exists.mp hb
  have hinit : (("initial_page_for_" ++ ("default_ctx_" ++ toString (cc + 1))) != "") = true := by
    simp only [bne_iff_ne, ne_eq]
    exact initial_page_ne_empty _
  have hinitp : ¬ (("initial_page_for_" ++ ("default_ctx_" ++ toString (cc + 1))) = "") :=
    initial_page_ne_empty _
  have hipd : ("initial_page_for_" ++ ("default_ctx_" ++ toString (cc + 1))) ≠
      ("default_page_" ++ toString (pc + 1 + 1)) :=
    initial_page_ne_default_page _ _
  refine ⟨⟨some b, [("default_ctx_" ++ toString (cc + 1), fr)], [("initial_page_for_" ++ ("default_ctx_" ++ toString (cc + 1)), ⟨fr + 1, fr⟩), ("default_page_" ++ toString (pc + 2), ⟨fr + 2, fr⟩)], some ("default_ctx_" ++ toString (cc + 1)), some ("initial_page_for_" ++ ("default_ctx_" ++ toString (cc + 1))), cc + 1, pc + 2, cph, cch, fr + 3⟩, ?_, ?_, ?_, ?_, ?_, ?_⟩
  · simp [create_page, create_context, start_browser, create_context_core,
      create_page_in, pyStrOr, pyTruthyStr, dmem, dget, dinsert, hinit, hinitp, hipd]
  · rfl
  · rfl
  · rfl
  · rfl
  · simp only [ne_eq, Option.some.injEq]
    exact initial_page_ne_default_page _ _

/-- Claim C5 amended, witnessed on the concrete empty registry. -/
theorem c5_amended_witness :
    ∃ s2,
      create_page (⟨some 0, [], [], none, none, 0, 0, [], [], 1⟩ : BMState) none none =
        Except.ok (s2, "default_page_" ++ toString (0 + 2)) ∧
      s2.contexts.map Prod.fst = ["default_ctx_" ++ toString (0 + 1)] ∧
      s2.activeContextId = some ("default_ctx_" ++ toString (0 + 1)) ∧
      s2.pages.map Prod.fst = ["initial_page_for_" ++ ("default_ctx_" ++ toString (0 + 1)), "default_page_" ++ toString (0 + 2)] ∧
      s2.activePageId = some ("initial_page_for_" ++ ("default_ctx_" ++ toString (0 + 1))) ∧
      s2.activePageId ≠ some ("default_page_" ++ toString (0 + 2)) :=
  c5_amended ⟨some 0, [], [], none, none, 0, 0, [], [], 1⟩ rfl rfl rfl rfl rfl

theorem close_context_contexts_of_live (s : BMState) (cid : String) (h : Nat)
    (hc : dget s.contexts cid = some h) :
    ((close_context s cid).1).contexts = dremove s.contexts cid ∧
    (close_context s cid).2 = true := by
  have hmaps : ∀ (t : BMState) (c : String),
      ((set_active_context t c).1).contexts = t.contexts :=
    fun t c => (set_active_context_maps t c).1
  unfold close_context
  rw [hc]
  refine ⟨?_, rfl⟩
  dsimp only
  split
  · split
    · simp [foldClose_contexts]
    · simp [hmaps, foldClose_contexts]
  · simp [foldClose_contexts]

theorem close_context_pages_of_live (s : BMState) (cid : String) (h : Nat)
    (hc : dget s.contexts cid = some h) (pid : String) (p : PageObj)
    (hp : dget s.pages pid = some p) (hpc : p.ctx = h) :
    dget ((close_context s cid).1).pages pid = none := by
  have hmaps : ∀ (t : BMState) (c : String),
      ((set_active_context t c).1).pages = t.pages :=
    fun t c => (set_active_context_maps t c).2
  have hmm : pid ∈ (s.pages.filter (fun kv => kv.2.ctx == h)).map (fun kv => kv.1) :=
    mem_owned_keys hp hpc
  have hfold : dget (((s.pages.filter (fun kv => kv.2.ctx == h)).map (fun kv => kv.1)).foldl
      (fun acc pid => (close_page acc pid).1)
      { s with contexts := dremove s.contexts cid }).pages pid = none :=
    foldClose_pages_of_mem _ _ _ hmm
  unfold close_context
  rw [hc]
  dsimp only
  split
  · split
    · simpa using hfold
    · simp only [hmaps]
      simpa using hfold
  · simpa using hfold

/-- Claim C8: `close_context` on a live context `C` cascades — it succeeds,
and afterwards `C` is absent from context lookups and every tracked page that
was owned by `C` is absent from page lookups. -/
theorem c8_close_context_cascades (s : BMState) (cid : String) (h : Nat)
    (hc : dget s.contexts cid = some h) :
    (close_context s cid).2 = true ∧
    get_context_by_id ((close_context s cid).1) cid = none ∧
    ∀ pid p, dget s.pages pid = some p → p.ctx = h →
      get_page_by_id ((close_context s cid).1) pid = none := by
  refine ⟨(close_context_contexts_of_live s cid h hc).2, ?_, ?_⟩
  · unfold get_context_by_id
    rw [(close_context_contexts_of_live s cid h hc).1, dget_dremove_self]
  · intro pid p hp hpc
    exact close_context_pages_of_live s cid h hc pid p hp hpc

/-- Claim C8 witnessed: closing a context with a tracked page removes both
the context and its page from lookups. -/
theorem c8_close_context_cascades_witness :
    (close_context (⟨some 0, [("c1", 1), ("c2", 3)], [("p1", ⟨2, 1⟩), ("p2", ⟨4, 3⟩)], some "c1", some "p1", 2, 2, [], [], 5⟩ : BMState) "c2").2 = true ∧
    get_context_by_id ((close_context (⟨some 0, [("c1", 1), ("c2", 3)], [("p1", ⟨2, 1⟩), ("p2", ⟨4, 3⟩)], some "c1", some "p1", 2, 2, [], [], 5⟩ : BMState) "c2").1) "c2" = none ∧
    get_page_by_id ((close_context (⟨some 0, [("c1", 1), ("c2", 3)], [("p1", ⟨2, 1⟩), ("p2", ⟨4, 3⟩)], some "c1", some "p1", 2, 2, [], [], 5⟩ : BMState) "c2").1) "p2" = none := by
  have hmain := c8_close_context_cascades
    ⟨some 0, [("c1", 1), ("c2", 3)], [("p1", ⟨2, 1⟩), ("p2", ⟨4, 3⟩)], some "c1", some "p1", 2, 2, [], [], 5⟩
    "c2" 3 rfl
  exact ⟨hmain.1, hmain.2.1, hmain.2.2 "p2" ⟨4, 3⟩ rfl rfl⟩

/-- Claim C10: creating a context (resp. page) under an id that is already
tracked succeeds with no error, silently replaces the registry entry with the
newly created object (the entry now holds the fresh handle, not the old
object), and never closes the previously tracked object — the closed-handle
records are unchanged. -/
theorem c10_create_overwrites (s : BMState) (cid pid : String) (oldc : Nat) (oldp : PageObj)
    (hcid : cid ≠ "") (hpid : pid ≠ "") (hb : s.browser.isSome = true)
    (hc : dget s.contexts cid = some oldc) (hp : dget s.pages pid = some oldp)
    (hfc : oldc ≠ s.fresh) (hfp : oldp.handle ≠ s.fresh) :
    (∃ s2, create_context s (some cid) = Except.ok (s2, cid) ∧
       dget s2.contexts cid = some s.fresh ∧ dget s2.contexts cid ≠ some oldc ∧
       s2.closedContextHandles = s.closedContextHandles ∧
       s2.closedPageHandles = s.closedPageHandles) ∧
    (∃ s3, create_page s (some cid) (some pid) = Except.ok (s3, pid) ∧
       dget s3.pages pid = some { handle := s.fresh, ctx := oldc } ∧
       dget s3.pages pid ≠ some oldp ∧
       s3.closedPageHandles = s.closedPageHandles ∧
       s3.closedContextHandles = s.closedContextHandles) := by
  have hbn : ¬ (s.browser.isNone = true) := by
    cases hx : s.browser with
    | none => rw [hx] at hb; cases hb
    | some b => simp [hx]
  constructor
  · have hmain : ∃ s2, create_context s (some cid) = Except.ok (s2, cid) ∧
        s2.contexts = dinsert s.contexts cid s.fresh ∧
        s2.closedContextHandles = s.closedContextHandles ∧
        s2.closedPageHandles = s.closedPageHandles := by
      cases hres : create_context s (some cid) with
      | error e =>
        exfalso
        unfold create_context at hres
        rw [if_pos hb] at hres
        unfold create_context_core at hres
        rw [if_neg hbn] at hres
        dsimp only at hres
        unfold create_page_in at hres
        rw [dget_dinsert_self] at hres
        dsimp only at hres
        exact Except.noConfusion hres
      | ok v =>
        obtain ⟨sv, rv⟩ := v
        unfold create_context at hres
        rw [if_pos hb] at hres
        unfold create_context_core at hres
        rw [if_neg hbn] at hres
        dsimp only at hres
        unfold create_page_in at hres
        rw [dget_dinsert_self] at hres
        rw [pyStrOr_some _ hcid] at hres
        dsimp only at hres
        injection hres with h2
        injection h2 with ha hbv
        subst ha
        subst hbv
        exact ⟨_, rfl, rfl, rfl, rfl⟩
    obtain ⟨s2, hres2, hctx2, hcch2, hcph2⟩ := hmain
    refine ⟨s2, hres2, ?_, ?_, hcch2, hcph2⟩
    · rw [hctx2, dget_dinsert_self]
    · rw [hctx2, dget_dinsert_self]
      simp only [ne_eq, Option.some.injEq]
      exact fun he => hfc he.symm
  · have htruthy : pyTruthyStr (some cid) = true := pyTruthy_str_of_ne hcid
    have hdmem : dmem s.contexts cid = true := by simp [dmem, hc]
    have hmain : ∃ s3, create_page s (some cid) (some pid) = Except.ok (s3, pid) ∧
        s3.pages = dinsert s.pages pid { handle := s.fresh, ctx := oldc } ∧
        s3.closedPageHandles = s.closedPageHandles ∧
        s3.closedContextHandles = s.closedContextHandles := by
      cases hres : create_page s (some cid) (some pid) with
      | error e =>
        exfalso
        unfold create_page at hres
        dsimp only at hres
        rw [if_neg hcid] at hres
        simp only [Option.getD_some, htruthy, hdmem, Bool.not_true, Bool.or_self,
          Bool.false_eq_true, if_false] at hres
        unfold create_page_in at hres
        rw [hc] at hres
        dsimp only at hres
        exact Except.noConfusion hres
      | ok v =>
        obtain ⟨sv, rv⟩ := v
        unfold create_page at hres
        dsimp only at hres
        rw [if_neg hcid] at hres
        simp only [Option.getD_some, htruthy, hdmem, Bool.not_true, Bool.or_self,
          Bool.false_eq_true, if_false] at hres
        unfold create_page_in at hres
        rw [hc] at hres
        dsimp only at hres
        rw [pyStrOr_some _ hpid] at hres
        injection hres with h2
        injection h2 with ha hbv
        subst ha
        subst hbv
        exact ⟨_, rfl, rfl, rfl, rfl⟩
    obtain ⟨s3, hres3, hpg3, hcph3, hcch3⟩ := hmain
    refine ⟨s3, hres3, ?_, ?_, hcph3, hcch3⟩
    · rw [hpg3, dget_dinsert_self]
    · rw [hpg3, dget_dinsert_self]
      simp only [ne_eq, Option.some.injEq]
      intro he
      exact hfp (by rw [← he])

/-- Claim C10 witnessed: overwriting the tracked context `"c"` and the
tracked page `"p"`. -/
theorem c10_create_overwrites_witness :
    (∃ s2, create_context (⟨some 0, [("c", 1)], [("p", ⟨2, 1⟩)], some "c", some "p", 1, 1, [], [], 3⟩ : BMState) (some "c") = Except.ok (s2, "c") ∧
       dget s2.contexts "c" = some 3 ∧ dget s2.contexts "c" ≠ some 1 ∧
       s2.closedContextHandles = ([] : List Nat) ∧ s2.closedPageHandles = ([] : List Nat)) ∧
    (∃ s3, create_page (⟨some 0, [("c", 1)], [("p", ⟨2, 1⟩)], some "c", some "p", 1, 1, [], [], 3⟩ : BMState) (some "c") (some "p") = Except.ok (s3, "p") ∧
       dget s3.pages "p" = some { handle := 3, ctx := 1 } ∧
       dget s3.pages "p" ≠ some ⟨2, 1⟩ ∧
       s3.closedPageHandles = ([] : List Nat) ∧ s3.closedContextHandles = ([] : List Nat)) :=
  c10_create_overwrites ⟨some 0, [("c", 1)], [("p", ⟨2, 1⟩)], some "c", some "p", 1, 1, [], [], 3⟩
    "c" "p" 1 ⟨2, 1⟩ (by decide) (by decide) rfl rfl rfl (by decide) (by decide)

end PuppeteerMCP
